import Mathlib

/-!
# Verification of the KIMAP2 session core

A shallow embedding of the session core of the kimap2 IMAP client library:
the response reader (`SessionPrivate::readMessage` and the earlier
`SessionThread::readMessage`), the session state machine
(`SessionPrivate::responseReceived`), the tag allocator and command writer
(`SessionPrivate::sendCommand`), the job-queue failure propagation
(`SessionPrivate::socketError`, `SessionPrivate::clearJobQueue`), and the
TLS fallback ladder (`SessionThread::startSsl`).

Byte arrays (`QByteArray`) are modelled as `List Nat` of byte values.
The IMAP stream parser (`ImapStreamParser`) and the `Message`/`Part` data
model are not part of the sources at hand, so they are modelled from the
specification (each such definition carries a doc comment saying so); the
session logic itself is translated directly from `session.cpp` and
`sessionthread.cpp`.
-/

namespace KIMAP2

/-- Bytes of a string literal, as their ASCII/UTF-8 code points. -/
def bytes (s : String) : List Nat := s.data.map Char.toNat

/-- Modelled from the spec (§3 Data model): a `Part` is a tagged variant
`String(bytes)`, `List(sequence of bytes)`, or `Literal(bytes)`.  The
`Message`/`Part` structures live in `message_p.h`, which is not among the
sources; the spec's data model is followed. -/
inductive Part where
  | string : List Nat → Part
  | list : List (List Nat) → Part
  | literal : List Nat → Part
deriving DecidableEq, Repr

/-- Modelled from the spec (§3): a `Message` is an ordered sequence of parts
plus an optional ordered sequence of response-code parts. -/
structure Message where
  content : List Part
  responseCode : List Part
deriving DecidableEq, Repr

/-- Join byte strings with single spaces (byte 32). -/
def joinSpaces : List (List Nat) → List Nat
  | [] => []
  | [x] => x
  | x :: xs => x ++ 32 :: joinSpaces xs

/-- Modelled from the spec: rendering of a single part back to bytes
(`Part::toString`); a string or literal renders as its bytes, a list as the
parenthesized space-separated items. -/
def Part.render : Part → List Nat
  | .string s => s
  | .literal s => s
  | .list l => 40 :: joinSpaces l ++ [41]

/-- Modelled from the spec: `Message::toString` renders the content parts
separated by spaces. -/
def Message.render (m : Message) : List Nat :=
  joinSpaces (m.content.map Part.render)

/-- Whitespace bytes removed by `QByteArray::trimmed`. -/
def isWhitespaceByte (c : Nat) : Bool :=
  c = 32 || c = 9 || c = 10 || c = 11 || c = 12 || c = 13

/-- `QByteArray::trimmed`: strip leading and trailing ASCII whitespace. -/
def trimmedBytes (l : List Nat) : List Nat :=
  ((l.dropWhile isWhitespaceByte).reverse.dropWhile isWhitespaceByte).reverse

/-- The tag of a response: `response.content[0].toString()` when the content
is non-empty, empty bytes otherwise (`session.cpp`, `responseReceived`). -/
def respTag (m : Message) : List Nat :=
  match m.content with
  | [] => []
  | p :: _ => p.render

/-- The status code of a response: `response.content[1].toString()` when at
least two parts are present (`session.cpp`, `responseReceived`). -/
def respCode (m : Message) : List Nat :=
  match m.content with
  | _ :: p :: _ => p.render
  | _ => []

/-! ## The stream parser

`ImapStreamParser` is not among the sources; the model below follows the
spec's §4.1 contract: a byte buffer with a read cursor, a saved-cursor
checkpoint and a sticky `insufficientData` flag; predicates
`atCommandEnd`, `hasString`, `hasList`, `hasResponseCode`,
`atResponseCodeEnd`, `hasLiteral`, `atLiteralEnd`; readers `readString`,
`readParenthesizedList`, `readLiteralPart`; and `parse`, `saveState`,
`restoreState`, `trimBuffer`, `availableDataSize`.  During one decode pass
only the cursor, the flag and the pending-literal size change, so those
three fields are grouped in `Cur` and the buffer is passed read-only. -/

/-- The mutable part of the parser during a decode pass: read cursor,
sticky insufficient-data flag, and remaining size of a pending literal. -/
structure Cur where
  cursor : Nat
  insufficient : Bool
  literalSize : Nat
deriving DecidableEq, Repr

/-- Full parser state: buffer, saved-cursor checkpoint, and cursor group. -/
structure ParserState where
  buffer : List Nat
  saved : Nat
  cur : Cur
deriving DecidableEq, Repr

/-- Modelled from the spec: `availableDataSize()` — bytes at or after the
read cursor. -/
def availableDataSize (st : ParserState) : Nat :=
  st.buffer.length - st.cur.cursor

/-- The unread suffix of the buffer. -/
def restOf (buffer : List Nat) (c : Cur) : List Nat :=
  buffer.drop c.cursor

/-- Does a CRLF pair occur in the byte list? -/
def hasCRLF : List Nat → Bool
  | 13 :: 10 :: _ => true
  | _ :: t => hasCRLF t
  | [] => false

/-- Modelled from the spec: `parse()` returns true iff a CRLF-terminated
response is (likely) available after the cursor. -/
def parseCheck (st : ParserState) : Bool :=
  hasCRLF (restOf st.buffer st.cur)

/-- Modelled from the spec: `saveState()` checkpoints the read cursor. -/
def saveState (st : ParserState) : ParserState :=
  { st with saved := st.cur.cursor }

/-- Modelled from the spec: `restoreState()` rolls the cursor back to the
checkpoint and clears the `insufficientData` flag. -/
def restoreState (st : ParserState) : ParserState :=
  { st with cur := { cursor := st.saved, insufficient := false, literalSize := 0 } }

/-- Modelled from the spec (§9): `trimBuffer` drops the consumed prefix:
`buffer.drain(..cursor); cursor = 0; saved = 0`. -/
def trimBuffer (st : ParserState) : ParserState :=
  { st with buffer := st.buffer.drop st.cur.cursor,
            saved := 0,
            cur := { st.cur with cursor := 0 } }

/-- Number of leading space bytes. -/
def countSpaces : List Nat → Nat
  | 32 :: t => countSpaces t + 1
  | _ => 0

/-- Token delimiters per the spec's tokenization rules: `(`, `)`, `{`,
`[`, `]`, CR, LF (the space is handled separately by space skipping). -/
def isDelim (c : Nat) : Bool :=
  c = 40 || c = 41 || c = 123 || c = 91 || c = 93 || c = 13 || c = 10

/-- Atom bytes stop at a delimiter or a space. -/
def isAtomStop (c : Nat) : Bool :=
  c = 32 || isDelim c

/-- Advance the cursor by `n` bytes. -/
def advance (c : Cur) (n : Nat) : Cur :=
  { c with cursor := c.cursor + n }

/-- Mark the insufficient-data flag. -/
def markInsufficient (c : Cur) : Cur :=
  { c with insufficient := true }

/-- Modelled from the spec: `atCommandEnd()` — true when the terminating
CRLF of the response sits at the cursor (after any spaces); consumes it.
Sets `insufficientData` when the buffer ends before the CRLF can be seen. -/
def atCommandEnd (buffer : List Nat) (c : Cur) : Bool × Cur :=
  if c.insufficient then (false, c)
  else
    let r := restOf buffer c
    let k := countSpaces r
    match r.drop k with
    | [] => (false, markInsufficient c)
    | [13] => (false, markInsufficient c)
    | 13 :: 10 :: _ => (true, advance c (k + 2))
    | _ => (false, c)

/-- Modelled from the spec: `hasString()` — after skipping spaces, the next
byte starts a quoted string or an atom (i.e. is not a delimiter). -/
def hasString (buffer : List Nat) (c : Cur) : Bool × Cur :=
  if c.insufficient then (false, c)
  else
    let r := restOf buffer c
    match r.drop (countSpaces r) with
    | [] => (false, markInsufficient c)
    | b :: _ => (!isDelim b, c)

/-- Modelled from the spec: `hasList()` — after skipping spaces, the next
byte is `(`. -/
def hasList (buffer : List Nat) (c : Cur) : Bool × Cur :=
  if c.insufficient then (false, c)
  else
    let r := restOf buffer c
    match r.drop (countSpaces r) with
    | [] => (false, markInsufficient c)
    | b :: _ => (b = 40, c)

/-- Modelled from the spec: `hasResponseCode()` — after skipping spaces, the
next byte is `[`; the bracket is consumed on success. -/
def hasResponseCode (buffer : List Nat) (c : Cur) : Bool × Cur :=
  if c.insufficient then (false, c)
  else
    let r := restOf buffer c
    let k := countSpaces r
    match r.drop k with
    | [] => (false, markInsufficient c)
    | 91 :: _ => (true, advance c (k + 1))
    | _ => (false, c)

/-- Modelled from the spec: `atResponseCodeEnd()` — after skipping spaces,
the next byte is `]`; the bracket is consumed on success. -/
def atResponseCodeEnd (buffer : List Nat) (c : Cur) : Bool × Cur :=
  if c.insufficient then (false, c)
  else
    let r := restOf buffer c
    let k := countSpaces r
    match r.drop k with
    | [] => (false, markInsufficient c)
    | 93 :: _ => (true, advance c (k + 1))
    | _ => (false, c)

/-- Is the byte an ASCII decimal digit? -/
def isDigitByte (c : Nat) : Bool := 48 ≤ c && c ≤ 57

/-- Numeric value of a big-endian run of ASCII digits. -/
def digitsToNat (l : List Nat) : Nat :=
  l.foldl (fun a c => 10 * a + (c - 48)) 0

/-- Modelled from the spec: `hasLiteral()` — after skipping spaces, a
complete `{N}` CRLF introducer sits at the cursor; it is consumed and the
pending literal size set to `N`.  If the introducer is cut short by the end
of the buffer the insufficient-data flag is set. -/
def hasLiteral (buffer : List Nat) (c : Cur) : Bool × Cur :=
  if c.insufficient then (false, c)
  else
    let r := restOf buffer c
    let k := countSpaces r
    match r.drop k with
    | [] => (false, markInsufficient c)
    | 123 :: rest =>
      let ds := rest.takeWhile isDigitByte
      if ds.isEmpty then (false, c)
      else
        match rest.drop ds.length with
        | 125 :: 13 :: 10 :: _ =>
          (true, { advance c (k + 1 + ds.length + 3) with literalSize := digitsToNat ds })
        | 125 :: 13 :: [] => (false, markInsufficient c)
        | 125 :: [] => (false, markInsufficient c)
        | [] => (false, markInsufficient c)
        | _ => (false, c)
    | _ => (false, c)

/-- Modelled from the spec: `atLiteralEnd()` — the pending literal has been
fully consumed, or a reader already ran out of bytes. -/
def atLiteralEnd (c : Cur) : Bool :=
  c.insufficient || c.literalSize = 0

/-- Modelled from the spec: `readLiteralPart()` — surface the pending
literal bytes; when the buffer holds fewer than the pending size, set the
insufficient-data flag and return nothing. -/
def readLiteralPart (buffer : List Nat) (c : Cur) : List Nat × Cur :=
  if c.insufficient then ([], c)
  else if c.literalSize = 0 then ([], c)
  else
    let r := restOf buffer c
    if r.length < c.literalSize then ([], markInsufficient c)
    else (r.take c.literalSize, { advance c c.literalSize with literalSize := 0 })

/-- Scan the remainder of a quoted string (opening quote already consumed):
`\"` and `\\` are escapes; returns the unescaped content and the number of
bytes consumed including the closing quote, or `none` when the buffer ends
first. -/
def scanQuoted : List Nat → Option (List Nat × Nat)
  | [] => none
  | 92 :: [] => none
  | 92 :: b :: rest =>
    match scanQuoted rest with
    | none => none
    | some (s, n) => some (b :: s, n + 2)
  | 34 :: _ => some ([], 1)
  | b :: rest =>
    match scanQuoted rest with
    | none => none
    | some (s, n) => some (b :: s, n + 1)

/-- Modelled from the spec: `readString()` — skip spaces, then read either a
quoted string or an atom; a reader that runs out of bytes sets the
insufficient-data flag and leaves the cursor restorable. -/
def readString (buffer : List Nat) (c : Cur) : List Nat × Cur :=
  if c.insufficient then ([], c)
  else
    let r := restOf buffer c
    let k := countSpaces r
    match r.drop k with
    | [] => ([], markInsufficient c)
    | 34 :: rest =>
      match scanQuoted rest with
      | none => ([], markInsufficient c)
      | some (s, n) => (s, advance c (k + 1 + n))
    | b :: _ =>
      if isDelim b then ([], c)
      else
        let a := (r.drop k).takeWhile (fun x => !isAtomStop x)
        if a.length = (r.drop k).length then ([], markInsufficient c)
        else (a, advance c (k + a.length))

/-- Capture a nested parenthesized group as one flat token (spec §4.1:
nested parentheses are read as flat tokens); the opening `(` has been
consumed and `depth ≥ 1`; returns the token bytes including the closing
parenthesis and the consumed count. -/
def scanGroup : List Nat → Nat → Option (List Nat × Nat)
  | [], _ => none
  | 41 :: _, 0 => some ([41], 1)
  | 41 :: _, 1 => some ([41], 1)
  | 41 :: rest, d + 2 =>
    match scanGroup rest (d + 1) with
    | none => none
    | some (s, n) => some (41 :: s, n + 1)
  | 40 :: rest, d =>
    match scanGroup rest (d + 1) with
    | none => none
    | some (s, n) => some (40 :: s, n + 1)
  | b :: rest, d =>
    match scanGroup rest d with
    | none => none
    | some (s, n) => some (b :: s, n + 1)

/-- Scan the items of a parenthesized list (opening `(` already consumed):
returns the flattened item tokens and the count of bytes consumed including
the closing `)`, or `none` when the buffer ends first or the content is not
list-shaped. -/
def scanPList (l : List Nat) : Option (List (List Nat) × Nat) :=
  match l with
  | [] => none
  | 41 :: _ => some ([], 1)
  | 32 :: rest =>
    match scanPList rest with
    | none => none
    | some (items, n) => some (items, n + 1)
  | 40 :: rest =>
    match scanGroup rest 1 with
    | none => none
    | some (tok, n) =>
      match scanPList (rest.drop n) with
      | none => none
      | some (items, m) => some ((40 :: tok) :: items, 1 + n + m)
  | 34 :: rest =>
    match scanQuoted rest with
    | none => none
    | some (s, n) =>
      match scanPList (rest.drop n) with
      | none => none
      | some (items, m) => some (s :: items, 1 + n + m)
  | b :: rest =>
    if isAtomStop b then none
    else
      let a := (b :: rest).takeWhile (fun x => !isAtomStop x)
      if a.length = (b :: rest).length then none
      else
        match scanPList ((b :: rest).drop a.length) with
        | none => none
        | some (items, m) => some (a :: items, a.length + m)
termination_by l.length
decreasing_by
  all_goals simp_all [List.length_drop]
  all_goals omega

/-- Modelled from the spec: `readParenthesizedList()` — read a flattened
parenthesized list of byte tokens. -/
def readParenthesizedList (buffer : List Nat) (c : Cur) :
    List (List Nat) × Cur :=
  if c.insufficient then ([], c)
  else
    let r := restOf buffer c
    let k := countSpaces r
    match r.drop k with
    | [] => ([], markInsufficient c)
    | 40 :: rest =>
      match scanPList rest with
      | none => ([], markInsufficient c)
      | some (items, n) => (items, advance c (k + 1 + n))
    | _ => ([], c)

/-! ## The response readers

`SessionPrivate::readMessage` (`session.cpp:501-563`) and the earlier
threaded `SessionThread::readMessage` (`sessionthread.cpp:79-130`) are
translated directly from the sources; both drive the parser model above. -/

/-- The state of one decode pass: cursor group, accumulated message parts,
and which payload list (`content` or `responseCode`) the payload pointer
currently targets. -/
structure DecodeSt where
  cur : Cur
  content : List Part
  responseCode : List Part
  toRespCode : Bool
deriving DecidableEq, Repr

/-- `*payload << part`: append to the list the payload pointer targets. -/
def addPart (d : DecodeSt) (p : Part) : DecodeSt :=
  if d.toRespCode then { d with responseCode := d.responseCode ++ [p] }
  else { d with content := d.content ++ [p] }

/-- The inner literal loop of `readMessage`:
`while (!stream->atLiteralEnd()) literal += stream->readLiteralPart();`. -/
def literalLoop : Nat → List Nat → Cur → List Nat → List Nat × Cur
  | 0, _, c, acc => (acc, c)
  | fuel + 1, buffer, c, acc =>
    if atLiteralEnd c then (acc, c)
    else
      let (chunk, c') := readLiteralPart buffer c
      literalLoop fuel buffer c' (acc ++ chunk)

/-- How the decode loop of the earlier threaded reader exits: the command
end was reached, the parser ran out of data (where the original raises
`ImapParserException`, caught by the caller), or the inconsistent-data
branch closed the socket and returned. -/
inductive LoopExit where
  | ended
  | exception
  | aborted
deriving DecidableEq, Repr

/-- The decode loop of `SessionPrivate::readMessage` (`session.cpp:516-553`):
`while (!stream->atCommandEnd())` dispatching on `hasString`, `hasList`,
`hasResponseCode`, `atResponseCodeEnd`, `hasLiteral`; each read part is
appended only when `insufficientData` is not set; a string part equal to
`"NIL"` becomes an empty list part; the final `else` aborts the socket when
the data is inconsistent rather than merely missing.  The boolean result
records that abort-and-return path. -/
def decodeLoop : Nat → List Nat → DecodeSt → DecodeSt × Bool
  | 0, _, d => (d, false)
  | fuel + 1, buffer, d =>
    let e := atCommandEnd buffer d.cur
    if e.1 then ({ d with cur := e.2 }, false)
    else
      let st := hasString buffer e.2
      if st.1 then
        let rs := readString buffer st.2
        let d' :=
          if rs.2.insufficient then { d with cur := rs.2 }
          else addPart { d with cur := rs.2 }
            (if rs.1 = bytes "NIL" then Part.list [] else Part.string rs.1)
        decodeLoop fuel buffer d'
      else
        let li := hasList buffer st.2
        if li.1 then
          let rl := readParenthesizedList buffer li.2
          let d' :=
            if rl.2.insufficient then { d with cur := rl.2 }
            else addPart { d with cur := rl.2 } (Part.list rl.1)
          decodeLoop fuel buffer d'
        else
          let rc := hasResponseCode buffer li.2
          if rc.1 then decodeLoop fuel buffer { d with cur := rc.2, toRespCode := true }
          else
            let rce := atResponseCodeEnd buffer rc.2
            if rce.1 then decodeLoop fuel buffer { d with cur := rce.2, toRespCode := false }
            else
              let hl := hasLiteral buffer rce.2
              if hl.1 then
                let ll := literalLoop (buffer.length + 2) buffer hl.2 []
                let d' :=
                  if ll.2.insufficient then { d with cur := ll.2 }
                  else addPart { d with cur := ll.2 } (Part.literal ll.1)
                decodeLoop fuel buffer d'
              else
                if hl.2.insufficient then ({ d with cur := hl.2 }, false)
                else ({ d with cur := hl.2 }, true)

/-- The decode loop of the earlier `SessionThread::readMessage`
(`sessionthread.cpp:91-118`): same dispatch, but parts are appended
unconditionally (the original parser raises an exception when data runs
out, modelled by the `exception` exit as soon as a reader sets the
insufficient-data flag), and the final `else` closes the socket and
returns. -/
def decodeLoopOld : Nat → List Nat → DecodeSt → DecodeSt × LoopExit
  | 0, _, d => (d, .exception)
  | fuel + 1, buffer, d =>
    let e := atCommandEnd buffer d.cur
    if e.2.insufficient then ({ d with cur := e.2 }, .exception)
    else if e.1 then ({ d with cur := e.2 }, .ended)
    else
      let st := hasString buffer e.2
      if st.1 then
        let rs := readString buffer st.2
        if rs.2.insufficient then ({ d with cur := rs.2 }, .exception)
        else
          decodeLoopOld fuel buffer
            (addPart { d with cur := rs.2 }
              (if rs.1 = bytes "NIL" then Part.list [] else Part.string rs.1))
      else
        let li := hasList buffer st.2
        if li.1 then
          let rl := readParenthesizedList buffer li.2
          if rl.2.insufficient then ({ d with cur := rl.2 }, .exception)
          else decodeLoopOld fuel buffer (addPart { d with cur := rl.2 } (Part.list rl.1))
        else
          let rc := hasResponseCode buffer li.2
          if rc.1 then decodeLoopOld fuel buffer { d with cur := rc.2, toRespCode := true }
          else
            let rce := atResponseCodeEnd buffer rc.2
            if rce.1 then
              decodeLoopOld fuel buffer { d with cur := rce.2, toRespCode := false }
            else
              let hl := hasLiteral buffer rce.2
              if hl.1 then
                let ll := literalLoop (buffer.length + 2) buffer hl.2 []
                if ll.2.insufficient then ({ d with cur := ll.2 }, .exception)
                else decodeLoopOld fuel buffer (addPart { d with cur := ll.2 } (Part.literal ll.1))
              else
                if hl.2.insufficient then ({ d with cur := hl.2 }, .exception)
                else ({ d with cur := hl.2 }, .aborted)

/-- The observable outcome of one read drain: resulting parser state, the
emitted message if any, whether another drain was scheduled cooperatively
(`invokeMethod(..., QueuedConnection)` / `QTimer::singleShot(0, ...)`),
and whether the transport was aborted. -/
structure ReadResult where
  ps : ParserState
  emitted : Option Message
  rescheduled : Bool
  aborted : Bool
deriving DecidableEq, Repr

/-- Fuel that always suffices for a decode pass over the buffer. -/
def fuelFor (st : ParserState) : Nat := st.buffer.length + 1

/-- `SessionPrivate::readMessage` (`session.cpp:501-563`): bail out when no
data or no CRLF-terminated response is available; `saveState`; run the
decode loop; on the inconsistent-data abort path return with the transport
aborted; if `insufficientData` ended up set, `restoreState` and emit
nothing; otherwise `trimBuffer`, emit exactly one message, and schedule
another drain cooperatively when `availableDataSize() >= 1`. -/
def readMessagePriv (ps0 : ParserState) : ReadResult :=
  if availableDataSize ps0 = 0 then ⟨ps0, none, false, false⟩
  else if !parseCheck ps0 then ⟨ps0, none, false, false⟩
  else
    let ps1 := saveState ps0
    let dl := decodeLoop (fuelFor ps1) ps1.buffer ⟨ps1.cur, [], [], false⟩
    if dl.2 then ⟨{ ps1 with cur := dl.1.cur }, none, false, true⟩
    else if dl.1.cur.insufficient then
      ⟨restoreState { ps1 with cur := dl.1.cur }, none, false, false⟩
    else
      let ps2 := trimBuffer { ps1 with cur := dl.1.cur }
      ⟨ps2, some ⟨dl.1.content, dl.1.responseCode⟩, 1 ≤ availableDataSize ps2, false⟩

/-- The earlier `SessionThread::readMessage` (`sessionthread.cpp:79-130`):
bail out when no data is available; run the decode loop with no
`saveState`/`trimBuffer`; on normal completion emit the message; on a
parser exception merely log; on the inconsistent-data path close the socket
and return at once; except on that abort path, schedule another drain
cooperatively only when `availableDataSize() > 1`. -/
def readMessageThread (ps0 : ParserState) : ReadResult :=
  if availableDataSize ps0 = 0 then ⟨ps0, none, false, false⟩
  else
    let dl := decodeLoopOld (fuelFor ps0) ps0.buffer ⟨ps0.cur, [], [], false⟩
    let ps' := { ps0 with cur := dl.1.cur }
    if dl.2 = .aborted then ⟨ps', none, false, true⟩
    else if dl.2 = .ended then
      ⟨ps', some ⟨dl.1.content, dl.1.responseCode⟩, 1 < availableDataSize ps', false⟩
    else ⟨ps', none, 1 < availableDataSize ps', false⟩

/-! ## Session state machine, tag allocator, command writer -/

/-- `Session::State` (`Disconnected`, `NotAuthenticated`, `Authenticated`,
`Selected`). -/
inductive SessState where
  | Disconnected
  | NotAuthenticated
  | Authenticated
  | Selected
deriving DecidableEq, Repr

/-- The session-private data the embedded functions touch: protocol state,
the three tracked tags, current and upcoming mailbox, saved greeting, tag
counter, and the id of the current job if one is running. -/
structure SessionSt where
  state : SessState
  authTag : List Nat
  selectTag : List Nat
  closeTag : List Nat
  currentMailBox : List Nat
  upcomingMailBox : List Nat
  greeting : List Nat
  tagCount : Nat
  currentJob : Option Nat
deriving DecidableEq, Repr

/-- A fresh session: `state = Disconnected`, `tagCount = 0`, all tracked
tags and mailboxes empty (`Session::Session`, `SessionPrivate`). -/
def initialSession : SessionSt :=
  ⟨.Disconnected, [], [], [], [], [], [], 0, none⟩

/-- The observable outcome of `SessionPrivate::responseReceived`: the new
session state, whether the socket was closed (rejected greeting), the
response forwarded to the current job (`currentJob->handleResponse`), the
no-job warning, and the logged-and-ignored `BYE` case. -/
structure RespOut where
  st : SessionSt
  closedSocket : Bool
  forwarded : Option Message
  warnedNoJob : Bool
  byeLogged : Bool
deriving DecidableEq, Repr

/-- `Session::serverGreeting()`. -/
def serverGreeting (s : SessionSt) : List Nat := s.greeting

/-- `Session::selectedMailBox()` returns
`QString::fromUtf8(d->currentMailBox)`; the UTF-8 decoding is modelled as
the identity on the byte list. -/
def selectedMailBox (s : SessionSt) : List Nat := s.currentMailBox

/-- `SessionPrivate::responseReceived` (`session.cpp:223-313`): extract the
tag and status code from the first two parts; a `BYE` status in any state
is logged and ignored; in `Disconnected` the greeting rules apply and the
function returns; otherwise the state-machine switch runs, the matching
tracked tags are cleared, and the response is forwarded to the current job
(or a warning logged when there is none). -/
def responseReceived (r : Message) (s : SessionSt) : RespOut :=
  let tag := respTag r
  let code := respCode r
  if code = bytes "BYE" then ⟨s, false, none, false, true⟩
  else
    match s.state with
    | .Disconnected =>
      if code = bytes "OK" then
        ⟨{ s with greeting := trimmedBytes (Message.render ⟨r.content.drop 2, r.responseCode⟩),
                  state := .NotAuthenticated },
          false, none, false, false⟩
      else if code = bytes "PREAUTH" then
        ⟨{ s with greeting := trimmedBytes (Message.render ⟨r.content.drop 2, r.responseCode⟩),
                  state := .Authenticated },
          false, none, false, false⟩
      else ⟨s, true, none, false, false⟩
    | _ =>
      let s1 :=
        match s.state with
        | .NotAuthenticated =>
          if code = bytes "OK" ∧ tag = s.authTag then { s with state := .Authenticated } else s
        | .Authenticated =>
          if code = bytes "OK" ∧ tag = s.selectTag then
            { s with state := .Selected, currentMailBox := s.upcomingMailBox }
          else s
        | .Selected =>
          if (code = bytes "OK" ∧ tag = s.closeTag) ∨ (code ≠ bytes "OK" ∧ tag = s.selectTag) then
            { s with state := .Authenticated, currentMailBox := [] }
          else if code = bytes "OK" ∧ tag = s.selectTag then
            { s with currentMailBox := s.upcomingMailBox }
          else s
        | .Disconnected => s
      let s2 :=
        { s1 with authTag := if tag = s1.authTag then [] else s1.authTag,
                  selectTag := if tag = s1.selectTag then [] else s1.selectTag,
                  closeTag := if tag = s1.closeTag then [] else s1.closeTag }
      match s.currentJob with
      | some _ => ⟨s2, false, some r, false, false⟩
      | none => ⟨s2, false, none, true, false⟩

/-- The base-10 digits of `n`, least significant first, computed with
structural fuel so that the definition evaluates in the kernel. -/
def natDigitsAux : Nat → Nat → List Nat
  | 0, _ => []
  | _ + 1, 0 => []
  | fuel + 1, n + 1 => (n + 1) % 10 :: natDigitsAux fuel ((n + 1) / 10)

/-- The base-10 digits of `n`, least significant first. -/
def natDigits (n : Nat) : List Nat := natDigitsAux n n

/-- The decimal digits of `n`, most significant first, as ASCII bytes
(`QByteArray::number`; for `n = 0` the empty list here is then padded to
`"000000"`, matching `"0".rightJustified(6, '0')`). -/
def digitsMSB (n : Nat) : List Nat :=
  (natDigits n).reverse.map (fun d => 48 + d)

/-- `QByteArray::rightJustified(6, '0')`: pad on the left with `'0'` bytes
up to width 6. -/
def padLeft6 (l : List Nat) : List Nat :=
  List.replicate (6 - l.length) 48 ++ l

/-- The allocated tag bytes:
`'A' + QByteArray::number(n).rightJustified(6, '0')`
(`session.cpp:326`). -/
def formatTag (n : Nat) : List Nat :=
  65 :: padLeft6 (digitsMSB n)

/-- The numeric value of a base-10 digit list, least significant first. -/
def decValue : List Nat → Nat
  | [] => 0
  | d :: ds => d + 10 * decValue ds

/-- Recover the counter value from a tag's bytes (drop the `'A'`, read the
decimal digits); a left inverse of `formatTag`. -/
def tagValue (t : List Nat) : Nat :=
  decValue (((t.drop 1).map (fun c => c - 48)).reverse)

/-- Modelled from the spec: the folder-name codec (`rfccodecs`,
`KIMAP2::decodeImapFolderName`) is out of the core's scope; the spec
specifies only that mUTF-7 decoding recovers the user-visible Unicode name
and leaves names without `&` escape sequences unchanged.  It is modelled as
the identity; theorems that rely on it carry an explicit no-`&` hypothesis
so nothing depends on the unmodelled escape decoding. -/
def decodeImapFolderName (s : List Nat) : List Nat := s

/-- The outcome of `SessionPrivate::sendCommand`: new session state, the
allocated tag, and the payload bytes handed to `sendData` (which appends
the CRLF). -/
structure SendOut where
  st : SessionSt
  tag : List Nat
  payload : List Nat
deriving DecidableEq, Repr

/-- `SessionPrivate::sendCommand` (`session.cpp:324-347`): allocate the tag
from the incremented counter, format `TAG SP command [SP args]`, and record
the tracked tag for `LOGIN`/`AUTHENTICATE`, `SELECT`/`EXAMINE` (also
decoding the mailbox argument — drop the opening quote byte, keep up to the
next quote, mUTF-7-decode — into `upcomingMailBox`) and `CLOSE`. -/
def sendCommand (command args : List Nat) (s : SessionSt) : SendOut :=
  let n := s.tagCount + 1
  let tag := formatTag n
  let payload := tag ++ 32 :: command ++ (if args = [] then [] else 32 :: args)
  let s1 := { s with tagCount := n }
  let s2 :=
    if command = bytes "LOGIN" ∨ command = bytes "AUTHENTICATE" then
      { s1 with authTag := tag }
    else if command = bytes "SELECT" ∨ command = bytes "EXAMINE" then
      { s1 with selectTag := tag,
                upcomingMailBox :=
                  decodeImapFolderName ((args.drop 1).takeWhile (fun c => c ≠ 34)) }
    else if command = bytes "CLOSE" then { s1 with closeTag := tag }
    else s1
  ⟨s2, tag, payload⟩

/-- Run a sequence of `sendCommand` calls, collecting the allocated tags in
order. -/
def runCommands : List (List Nat × List Nat) → SessionSt → SessionSt × List (List Nat)
  | [], s => (s, [])
  | ca :: rest, s =>
    let o := sendCommand ca.1 ca.2 s
    ((runCommands rest o.st).1, o.tag :: (runCommands rest o.st).2)

/-! ## Job queue failure propagation -/

/-- The job-queue data `socketError` and `clearJobQueue` touch: the current
job (if one is running), the FIFO of queued jobs, and the
socket-connected flag.  Jobs are identified by numbers. -/
structure JobSt where
  currentJob : Option Nat
  queue : List Nat
  isSocketConnected : Bool
deriving DecidableEq, Repr

/-- The outcome of `SessionPrivate::socketError`: possibly updated queue
state, the single job that received `setSocketError` (if any), and whether
`closeSocket()` was called. -/
structure ErrOut where
  st : JobSt
  notifiedSocketError : Option Nat
  closedSocket : Bool
deriving DecidableEq, Repr

/-- `SessionPrivate::socketError` (`session.cpp:393-408`): deliver
`setSocketError` to the current job, else promote the first queued job to
current and deliver it there; then close the socket if still connected. -/
def socketErrorFn (s : JobSt) : ErrOut :=
  match s.currentJob with
  | some j => ⟨s, some j, s.isSocketConnected⟩
  | none =>
    match s.queue with
    | j :: rest => ⟨{ s with currentJob := some j, queue := rest }, some j, s.isSocketConnected⟩
    | [] => ⟨s, none, s.isSocketConnected⟩

/-- The outcome of `SessionPrivate::clearJobQueue`: updated queue state,
the single job that received `connectionLost` (if any), and the jobs
destroyed by `qDeleteAll` without receiving any notification. -/
structure ClearOut where
  st : JobSt
  notifiedConnectionLost : Option Nat
  destroyed : List Nat
deriving DecidableEq, Repr

/-- `SessionPrivate::clearJobQueue` (`session.cpp:410-423`): deliver
`connectionLost` to the current job, else promote the first queued job and
deliver it there; then destroy every job still in the queue and clear it. -/
def clearJobQueue (s : JobSt) : ClearOut :=
  match s.currentJob with
  | some j => ⟨{ s with queue := [] }, some j, s.queue⟩
  | none =>
    match s.queue with
    | j :: rest => ⟨{ s with currentJob := some j, queue := [] }, some j, rest⟩
    | [] => ⟨{ s with queue := [] }, none, []⟩

/-- The job the failure paths notify: the current job, else the head of the
queue. -/
def firstJob (s : JobSt) : Option Nat :=
  match s.currentJob with
  | some j => some j
  | none => s.queue.head?

/-! ## TLS fallback ladder (`SessionThread::startSsl`, first version) -/

/-- `KTcpSocket::SslVersion` — the constructors the sources mention, plus
the distinct TLS 1.1/1.2 values needed to state the spec's claimed
ladder. -/
inductive SslVersion where
  | UnknownSslVersion
  | SslV2
  | SslV3
  | TlsV1
  | TlsV1_1
  | TlsV1_2
  | AnySslVersion
deriving DecidableEq, Repr

/-- Bitset value of `KTcpSocket::SslV2`. -/
def bitSslV2 : Nat := 1
/-- Bitset value of `KTcpSocket::SslV3`. -/
def bitSslV3 : Nat := 2
/-- Bitset value of `KTcpSocket::TlsV1`. -/
def bitTlsV1 : Nat := 4

/-- The `SessionThread` fields driving the fallback: the advertised SSL
version of the socket, the bitset of tried versions, and the fallback
flag. -/
structure SslThreadSt where
  advertisedSslVersion : SslVersion
  triedSslVersions : Nat
  doSslFallback : Bool
deriving DecidableEq, Repr

/-- Initial `SessionThread` TLS state: nothing advertised, nothing tried,
no fallback in progress. -/
def initialSslThread : SslThreadSt :=
  ⟨.UnknownSslVersion, 0, false⟩

/-- `SessionThread::startSsl` (`sessionthread.cpp:190-216`): for
`AnySslVersion`, set the fallback flag and advertise, in order across
successive attempts, `AnySslVersion` (first attempt), then `TlsV1`, then
`SslV3`, then `SslV2`, recording each in the tried bitset; the `SslV2`
branch clears the fallback flag.  Any other requested version is advertised
directly. -/
def startSsl (version : SslVersion) (s : SslThreadSt) : SslThreadSt :=
  if version = .AnySslVersion then
    let s1 := { s with doSslFallback := true }
    if s1.advertisedSslVersion = .UnknownSslVersion then
      { s1 with advertisedSslVersion := .AnySslVersion }
    else if s1.triedSslVersions &&& bitTlsV1 = 0 then
      { s1 with triedSslVersions := s1.triedSslVersions ||| bitTlsV1,
                advertisedSslVersion := .TlsV1 }
    else if s1.triedSslVersions &&& bitSslV3 = 0 then
      { s1 with triedSslVersions := s1.triedSslVersions ||| bitSslV3,
                advertisedSslVersion := .SslV3 }
    else if s1.triedSslVersions &&& bitSslV2 = 0 then
      { s1 with triedSslVersions := s1.triedSslVersions ||| bitSslV2,
                advertisedSslVersion := .SslV2,
                doSslFallback := false }
    else s1
  else { s with advertisedSslVersion := version }

/-- `SessionThread::socketDisconnected` (`sessionthread.cpp:218-225`):
while the fallback flag is set a disconnect triggers a plaintext
`reconnect()`; otherwise the disconnect is forwarded to the session.
Returns `true` when the reconnect path is taken. -/
def threadSocketDisconnected (s : SslThreadSt) : Bool :=
  s.doSslFallback

/-! ## Derived predicates and concrete fixtures -/

/-- The response matches one of the state-machine transition rules of
`responseReceived` (the §4.4 table): in `Disconnected` every response is
handled by the greeting rules; in the other states the tagged-completion
conditions of the corresponding `switch` branch. -/
def matchesTransition (s : SessionSt) (tag code : List Nat) : Prop :=
  match s.state with
  | .Disconnected => True
  | .NotAuthenticated => code = bytes "OK" ∧ tag = s.authTag
  | .Authenticated => code = bytes "OK" ∧ tag = s.selectTag
  | .Selected => (code = bytes "OK" ∧ tag = s.closeTag) ∨ tag = s.selectTag

/-- No part of the list is a string part holding the bytes `"NIL"`. -/
def noNilPart (l : List Part) : Prop :=
  Part.string (bytes "NIL") ∉ l

/-- A parser state holding the given bytes with the cursor at the start. -/
def pstate (s : String) : ParserState :=
  ⟨bytes s, 0, ⟨0, false, 0⟩⟩

/-- The server-greeting wire bytes of the spec's first end-to-end
scenario. -/
def greetingParser : ParserState :=
  pstate "* OK IMAP4rev1 Service Ready\r\n"

/-- The message the reader produces from the greeting bytes. -/
def greetingMessage : Message :=
  ⟨[Part.string (bytes "*"), Part.string (bytes "OK"),
    Part.string (bytes "IMAP4rev1"), Part.string (bytes "Service"),
    Part.string (bytes "Ready")], []⟩

/-- A buffer holding one complete response followed by one extra byte. -/
def oneByteLeftParser : ParserState :=
  pstate "* OK\r\nX"

/-- A buffer holding one complete response followed by two extra bytes. -/
def twoBytesLeftParser : ParserState :=
  pstate "* A\r\nYZ"

/-- A response line containing a `NIL` string token between two atoms. -/
def nilDemoParser : ParserState :=
  pstate "* X NIL Y\r\n"

/-- The message the reader produces from `nilDemoParser`: at the position
of the `NIL` token sits an empty list part. -/
def nilDemoMessage : Message :=
  ⟨[Part.string (bytes "*"), Part.string (bytes "X"),
    Part.list [], Part.string (bytes "Y")], []⟩

/-- A login followed by a select, as issued by the spec's end-to-end
scenarios 2 and 3. -/
def demoCmds : List (List Nat × List Nat) :=
  [(bytes "LOGIN", bytes "\"u\" \"p\""), (bytes "SELECT", bytes "\"INBOX\"")]

/-- First `startSsl(AnySslVersion)` attempt. -/
def sslAttempt1 : SslThreadSt := startSsl .AnySslVersion initialSslThread
/-- Second `startSsl(AnySslVersion)` attempt. -/
def sslAttempt2 : SslThreadSt := startSsl .AnySslVersion sslAttempt1
/-- Third `startSsl(AnySslVersion)` attempt. -/
def sslAttempt3 : SslThreadSt := startSsl .AnySslVersion sslAttempt2
/-- Fourth `startSsl(AnySslVersion)` attempt. -/
def sslAttempt4 : SslThreadSt := startSsl .AnySslVersion sslAttempt3

/-- A job queue with a running job 5 and queued jobs 6 and 7. -/
def jw2 : JobSt := ⟨some 5, [6, 7], true⟩

/-- A selected-state session awaiting the completion of SELECT `A000002`
with job 1 running. -/
def sel2Session : SessionSt :=
  { initialSession with state := .Selected, selectTag := bytes "A000002",
                        currentJob := some 1 }

/-- A tagged `BYE` response carrying the tag tracked by `sel2Session`. -/
def taggedByeMsg : Message :=
  ⟨[Part.string (bytes "A000002"), Part.string (bytes "BYE")], []⟩

/-- A degenerate selected-state session whose tracked select and close tags
hold the same value `T`. -/
def collidingSession : SessionSt :=
  { initialSession with state := .Selected, selectTag := bytes "T",
                        closeTag := bytes "T", upcomingMailBox := bytes "M" }

/-- An `OK`-status response tagged `T`. -/
def okTMsg : Message :=
  ⟨[Part.string (bytes "T"), Part.string (bytes "OK")], []⟩

/-- A selected-state session awaiting the completion of CLOSE `A000003`. -/
def closeSession : SessionSt :=
  { initialSession with state := .Selected, closeTag := bytes "A000003",
                        currentMailBox := bytes "INBOX", currentJob := some 2 }

/-- The `OK` completion of the CLOSE tracked by `closeSession`. -/
def closeOkMsg : Message :=
  ⟨[Part.string (bytes "A000003"), Part.string (bytes "OK"),
    Part.string (bytes "CLOSE"), Part.string (bytes "completed")], []⟩

/-- An authenticated session with job 7 running. -/
def authSession : SessionSt :=
  { initialSession with state := .Authenticated, currentJob := some 7 }

/-- An untagged `EXISTS` response, matched by no transition rule. -/
def existsMsg : Message :=
  ⟨[Part.string (bytes "*"), Part.string (bytes "5"),
    Part.string (bytes "EXISTS")], []⟩

/-- An untagged `BYE` response. -/
def untaggedByeMsg : Message :=
  ⟨[Part.string (bytes "*"), Part.string (bytes "BYE"),
    Part.string (bytes "shutting"), Part.string (bytes "down")], []⟩

/-- A tagged `BYE` response whose tag matches no tag tracked by
`authSession`. -/
def taggedByeUntracked : Message :=
  ⟨[Part.string (bytes "A000009"), Part.string (bytes "BYE")], []⟩

/-- A not-authenticated session awaiting the completion of LOGIN
`A000001`. -/
def loginSession : SessionSt :=
  { initialSession with state := .NotAuthenticated, authTag := bytes "A000001" }

/-- A `NO`-status completion of the LOGIN tracked by `loginSession`. -/
def loginNoMsg : Message :=
  ⟨[Part.string (bytes "A000001"), Part.string (bytes "NO"),
    Part.string (bytes "denied")], []⟩

/-! ## Theorems -/

/-- C1: the claim states that feeding `* OK IMAP4rev1 Service Ready\r\n`
in `Disconnected` yields state `NotAuthenticated` with
`serverGreeting() == "OK IMAP4rev1 Service Ready"`.  The state transition
holds, but `responseReceived` strips both the `*` tag and the `OK` status
code before saving the greeting (`session.cpp:257-259`), so the saved
greeting is `"IMAP4rev1 Service Ready"`, without the leading `OK` — the
claim's expected greeting is refuted at this concrete input. -/
theorem C1_counterexample :
    (readMessagePriv greetingParser).emitted = some greetingMessage ∧
    (responseReceived greetingMessage initialSession).st.state =
      SessState.NotAuthenticated ∧
    serverGreeting (responseReceived greetingMessage initialSession).st ≠
      bytes "OK IMAP4rev1 Service Ready" := by
  refine ⟨by decide, by decide, by decide⟩

/-- C1 (amended): after feeding `* OK IMAP4rev1 Service Ready\r\n` in state
`Disconnected`, the state becomes `NotAuthenticated` and the greeting is
saved with the leading tag and status code stripped: `serverGreeting()`
returns exactly `"IMAP4rev1 Service Ready"`. -/
theorem C1_amended :
    (readMessagePriv greetingParser).emitted = some greetingMessage ∧
    (readMessagePriv greetingParser).rescheduled = false ∧
    (responseReceived greetingMessage initialSession).st.state =
      SessState.NotAuthenticated ∧
    serverGreeting (responseReceived greetingMessage initialSession).st =
      bytes "IMAP4rev1 Service Ready" := by
  refine ⟨by decide, by decide, by decide, by decide⟩

/-- C8: the claim states that with protocol `Any` the successive
`startSsl` attempts advertise, in order, TLS1.2, TLS1.1, TLS1.0, SSL3,
SSL2.  The code (`sessionthread.cpp:190-216`) has no TLS1.2 or TLS1.1
steps: the first attempt advertises `AnySslVersion` and the second
advertises `TlsV1`, refuting the claimed ladder at its first two steps. -/
theorem C8_counterexample :
    sslAttempt1.advertisedSslVersion = SslVersion.AnySslVersion ∧
    sslAttempt1.advertisedSslVersion ≠ SslVersion.TlsV1_2 ∧
    sslAttempt2.advertisedSslVersion = SslVersion.TlsV1 ∧
    sslAttempt2.advertisedSslVersion ≠ SslVersion.TlsV1_1 := by
  refine ⟨by decide, by decide, by decide, by decide⟩

/-- C8 (amended): when TLS is requested with protocol `Any`, successive
`startSsl` attempts advertise, in order, `AnySslVersion`, then `TlsV1`,
then `SslV3`, then `SslV2`; each fallback attempt is recorded in the
`triedSslVersions` bitset; between attempts a disconnect while the
fallback flag is set triggers a plaintext reconnect; and the fallback flag
is set on every attempt and cleared exactly on the last (`SslV2`) attempt
of the ladder. -/
theorem C8_amended :
    sslAttempt1.advertisedSslVersion = SslVersion.AnySslVersion ∧
    sslAttempt2.advertisedSslVersion = SslVersion.TlsV1 ∧
    sslAttempt3.advertisedSslVersion = SslVersion.SslV3 ∧
    sslAttempt4.advertisedSslVersion = SslVersion.SslV2 ∧
    sslAttempt2.triedSslVersions = bitTlsV1 ∧
    sslAttempt3.triedSslVersions = (bitTlsV1 ||| bitSslV3) ∧
    sslAttempt4.triedSslVersions = (bitTlsV1 ||| bitSslV3 ||| bitSslV2) ∧
    sslAttempt1.doSslFallback = true ∧
    sslAttempt2.doSslFallback = true ∧
    sslAttempt3.doSslFallback = true ∧
    sslAttempt4.doSslFallback = false ∧
    threadSocketDisconnected sslAttempt1 = true ∧
    threadSocketDisconnected sslAttempt2 = true ∧
    threadSocketDisconnected sslAttempt3 = true ∧
    threadSocketDisconnected sslAttempt4 = false := by
  decide

/-- C2: the claim states that after a transport error or disconnect every
job added before the event receives exactly one of `setSocketError` or
`connectionLost`.  Refuted twice at concrete inputs: (a) on a disconnect
with no current job and queue `[1, 2]`, `clearJobQueue` notifies only the
promoted job 1 and destroys job 2 with neither notification
(`session.cpp:419-421`); (b) on a transport error with queue `[1]`,
`socketError` promotes job 1 and delivers `setSocketError`, and the
subsequent disconnect's `clearJobQueue` finds job 1 still current and also
delivers `connectionLost` — job 1 receives both. -/
theorem C2_counterexample :
    (clearJobQueue ⟨none, [1, 2], true⟩).notifiedConnectionLost = some 1 ∧
    (clearJobQueue ⟨none, [1, 2], true⟩).destroyed = [2] ∧
    (socketErrorFn ⟨none, [1], true⟩).notifiedSocketError = some 1 ∧
    (socketErrorFn ⟨none, [1], true⟩).closedSocket = true ∧
    (clearJobQueue (socketErrorFn ⟨none, [1], true⟩).st).notifiedConnectionLost =
      some 1 := by
  decide

/-- C2 (amended): on a transport error exactly one job — the current one,
else the first queued job, which is promoted to current — receives
`setSocketError` (none when no jobs exist); on a disconnect exactly one
job — the current one, else the first queued — receives `connectionLost`;
every other queued job is destroyed without receiving either notification;
and a job promoted by the error path that is still current at the
subsequent disconnect receives both notifications. -/
theorem C2_amended (s : JobSt) (hnd : s.queue.Nodup)
    (hcur : ∀ j, s.currentJob = some j → j ∉ s.queue) :
    (socketErrorFn s).notifiedSocketError = firstJob s ∧
    (socketErrorFn s).st.currentJob = firstJob s ∧
    (clearJobQueue s).notifiedConnectionLost = firstJob s ∧
    (clearJobQueue (socketErrorFn s).st).notifiedConnectionLost = firstJob s ∧
    (firstJob s = none ↔ s.currentJob = none ∧ s.queue = []) ∧
    (∀ j ∈ (clearJobQueue s).destroyed, firstJob s ≠ some j) := by
  obtain ⟨cur, q, conn⟩ := s
  cases cur with
  | some j0 =>
    have hj0 : j0 ∉ q := hcur j0 rfl
    refine ⟨rfl, rfl, rfl, rfl, by simp [firstJob], ?_⟩
    intro j hj
    simp only [clearJobQueue] at hj
    simp only [firstJob]
    intro h
    injection h with h'
    subst h'
    exact hj0 hj
  | none =>
    cases q with
    | nil => exact ⟨rfl, rfl, rfl, rfl, by simp [firstJob], by intro j hj; simp [clearJobQueue] at hj⟩
    | cons j1 rest =>
      have hj1 : j1 ∉ rest := (List.nodup_cons.mp hnd).1
      refine ⟨rfl, rfl, rfl, rfl, by simp [firstJob], ?_⟩
      intro j hj
      simp only [clearJobQueue] at hj
      simp only [firstJob, List.head?]
      intro h
      injection h with h'
      subst h'
      exact hj1 hj

/-- Witness for C2 (amended): with job 5 running and jobs 6 and 7 queued,
the error path notifies exactly job 5 and the disconnect path notifies
exactly job 5. -/
theorem C2_amended_witness :
    (socketErrorFn jw2).notifiedSocketError = firstJob jw2 ∧
    (clearJobQueue jw2).notifiedConnectionLost = firstJob jw2 ∧
    firstJob jw2 = some 5 := by
  have h := C2_amended jw2 (by decide)
    (by intro j hj; injection hj with h; subst h; decide)
  exact ⟨h.1, h.2.2.1, by decide⟩

/-- In any state but `Disconnected`, and for any non-`BYE` status, each
tracked tag is cleared exactly when the response's tag equals it
(`session.cpp:294-302`). -/
theorem responseReceived_tracked (s : SessionSt) (r : Message)
    (hst : s.state ≠ SessState.Disconnected) (hb : respCode r ≠ bytes "BYE") :
    (responseReceived r s).st.authTag =
      (if respTag r = s.authTag then [] else s.authTag) ∧
    (responseReceived r s).st.selectTag =
      (if respTag r = s.selectTag then [] else s.selectTag) ∧
    (responseReceived r s).st.closeTag =
      (if respTag r = s.closeTag then [] else s.closeTag) := by
  obtain ⟨st, aT, sT, cT, cM, uM, gr, tc, cj⟩ := s
  cases st with
  | Disconnected => exact absurd rfl hst
  | NotAuthenticated =>
    simp only [responseReceived, if_neg hb]
    cases cj <;> split_ifs <;> simp_all
  | Authenticated =>
    simp only [responseReceived, if_neg hb]
    cases cj <;> split_ifs <;> simp_all
  | Selected =>
    simp only [responseReceived, if_neg hb]
    cases cj <;> split_ifs <;> simp_all

/-- C9: in every state other than `Disconnected`, processing a response
whose status is not `BYE` clears each tracked tag the response's tag
equals, whether or not the status is `OK`; afterwards no tracked tag holds
that (non-empty) tag value any more, so it can never trigger a transition
later. -/
theorem C9_theorem (s : SessionSt) (r : Message)
    (hst : s.state ≠ SessState.Disconnected) (hb : respCode r ≠ bytes "BYE") :
    (respTag r = s.authTag → (responseReceived r s).st.authTag = []) ∧
    (respTag r = s.selectTag → (responseReceived r s).st.selectTag = []) ∧
    (respTag r = s.closeTag → (responseReceived r s).st.closeTag = []) ∧
    (respTag r ≠ [] →
      (responseReceived r s).st.authTag ≠ respTag r ∧
      (responseReceived r s).st.selectTag ≠ respTag r ∧
      (responseReceived r s).st.closeTag ≠ respTag r) := by
  obtain ⟨h1, h2, h3⟩ := responseReceived_tracked s r hst hb
  refine ⟨?_, ?_, ?_, ?_⟩
  · intro ht; rw [h1, if_pos ht]
  · intro ht; rw [h2, if_pos ht]
  · intro ht; rw [h3, if_pos ht]
  · intro hne
    refine ⟨?_, ?_, ?_⟩
    · rw [h1]; split_ifs with hc
      · exact fun he => hne he.symm
      · exact fun he => hc he.symm
    · rw [h2]; split_ifs with hc
      · exact fun he => hne he.symm
      · exact fun he => hc he.symm
    · rw [h3]; split_ifs with hc
      · exact fun he => hne he.symm
      · exact fun he => hc he.symm

/-- Witness for C9: a failed (`NO`) LOGIN completion still empties the
tracked `authTag`. -/
theorem C9_witness :
    (responseReceived loginNoMsg loginSession).st.authTag = [] ∧
    (responseReceived loginNoMsg loginSession).st.authTag ≠ respTag loginNoMsg := by
  have h := C9_theorem loginSession loginNoMsg (by decide) (by decide)
  exact ⟨h.1 (by decide), (h.2.2.2 (by decide)).1⟩

/-- C5: the claim restricts the logged-and-dropped rule to untagged `BYE`
and asserts that every other response matched by no transition rule is
forwarded to the current job.  Refuted at a concrete input: the `BYE`
guard (`session.cpp:242-250`) catches any response whose status code is
`BYE`, tagged or not, before the switch — a tagged `BYE` carrying an
untracked tag in state `Authenticated` is not an untagged `BYE` and
matches no transition rule, yet it is dropped: nothing is forwarded to the
running job 7. -/
theorem C5_counterexample :
    respTag taggedByeUntracked ≠ bytes "*" ∧
    ¬ matchesTransition authSession (respTag taggedByeUntracked)
      (respCode taggedByeUntracked) ∧
    authSession.currentJob = some 7 ∧
    (responseReceived taggedByeUntracked authSession).forwarded = none ∧
    (responseReceived taggedByeUntracked authSession).st = authSession ∧
    (responseReceived taggedByeUntracked authSession).byeLogged = true := by
  refine ⟨by decide, ?_, rfl, by decide, by decide, by decide⟩
  show ¬ (respCode taggedByeUntracked = bytes "OK" ∧
    respTag taggedByeUntracked = authSession.selectTag)
  decide

/-- C5 (amended): any response whose status code is `BYE` — untagged or
tagged — is only logged in any state: the session data is unchanged,
nothing is forwarded, the socket stays open.  Every other (non-`BYE`)
response that matches no state-machine transition rule leaves the state
unchanged and is forwarded unchanged to the current job when one exists;
with no current job it is only logged as a warning
(`session.cpp:240-250, 304-312`). -/
theorem C5_amended (s : SessionSt) (r : Message) :
    (respCode r = bytes "BYE" →
      responseReceived r s = ⟨s, false, none, false, true⟩) ∧
    (s.state ≠ SessState.Disconnected → respCode r ≠ bytes "BYE" →
      ¬ matchesTransition s (respTag r) (respCode r) →
      (responseReceived r s).st.state = s.state ∧
      (responseReceived r s).closedSocket = false ∧
      (s.currentJob = none → (responseReceived r s).forwarded = none ∧
        (responseReceived r s).warnedNoJob = true) ∧
      (∀ j, s.currentJob = some j → (responseReceived r s).forwarded = some r ∧
        (responseReceived r s).warnedNoJob = false)) := by
  constructor
  · intro hc
    simp [responseReceived, hc]
  · intro hst hb hm
    obtain ⟨st, aT, sT, cT, cM, uM, gr, tc, cj⟩ := s
    cases st with
    | Disconnected => exact absurd rfl hst
    | NotAuthenticated =>
      simp only [matchesTransition] at hm
      simp only [responseReceived, if_neg hb, if_neg hm]
      cases cj <;> simp
    | Authenticated =>
      simp only [matchesTransition] at hm
      simp only [responseReceived, if_neg hb, if_neg hm]
      cases cj <;> simp
    | Selected =>
      simp only [matchesTransition] at hm
      have hm1 : ¬ ((respCode r = bytes "OK" ∧ respTag r = cT) ∨
          (respCode r ≠ bytes "OK" ∧ respTag r = sT)) := by
        rintro (h | ⟨_, h2⟩)
        · exact hm (Or.inl h)
        · exact hm (Or.inr h2)
      have hm2 : ¬ (respCode r = bytes "OK" ∧ respTag r = sT) :=
        fun h => hm (Or.inr h.2)
      simp only [responseReceived, if_neg hb, if_neg hm1, if_neg hm2]
      cases cj <;> simp

/-- Witness for C5 (amended): an untagged `BYE` leaves an authenticated
session untouched, and an untagged `EXISTS` is forwarded unchanged to the
running job 7 without a warning. -/
theorem C5_amended_witness :
    responseReceived untaggedByeMsg authSession =
      ⟨authSession, false, none, false, true⟩ ∧
    (responseReceived existsMsg authSession).st.state = authSession.state ∧
    (responseReceived existsMsg authSession).forwarded = some existsMsg ∧
    (responseReceived existsMsg authSession).warnedNoJob = false := by
  have h1 := (C5_amended authSession untaggedByeMsg).1 (by decide)
  have h2 := (C5_amended authSession existsMsg).2 (by decide) (by decide)
    (by show ¬ (respCode existsMsg = bytes "OK" ∧
          respTag existsMsg = authSession.selectTag)
        decide)
  exact ⟨h1, h2.1, (h2.2.2.2 7 rfl).1, (h2.2.2.2 7 rfl).2⟩

/-- C4: the claim quantifies over all non-`OK` statuses and all tag
matches in state `Selected`.  Refuted at concrete inputs: (a) a tagged
`BYE` carrying the tracked select tag is a non-`OK`-status response with
`tag == selectTag`, yet the `BYE` guard (`session.cpp:242-250`) returns
before the switch and the state remains `Selected` instead of moving to
`Authenticated`; (b) when the tracked close and select tags hold the same
value, an `OK` response with `tag == selectTag` takes the close branch to
`Authenticated` instead of staying `Selected`. -/
theorem C4_counterexample :
    respCode taggedByeMsg ≠ bytes "OK" ∧
    respTag taggedByeMsg = sel2Session.selectTag ∧
    sel2Session.state = SessState.Selected ∧
    (responseReceived taggedByeMsg sel2Session).st.state = SessState.Selected ∧
    respCode okTMsg = bytes "OK" ∧
    respTag okTMsg = collidingSession.selectTag ∧
    collidingSession.state = SessState.Selected ∧
    (responseReceived okTMsg collidingSession).st.state =
      SessState.Authenticated := by
  decide

/-- C4 (amended): in state `Selected`, for responses whose status is not
`BYE`: a response with status `OK` and tag equal to `closeTag`, or with
non-`OK` status and tag equal to `selectTag`, moves the state to
`Authenticated` and clears the current mailbox; a response with status
`OK`, tag equal to `selectTag` and tag different from `closeTag`
(re-select) keeps the state `Selected` and sets the current mailbox to the
upcoming mailbox name. -/
theorem C4_amended (s : SessionSt) (r : Message)
    (hst : s.state = SessState.Selected) (hbye : respCode r ≠ bytes "BYE") :
    ((respCode r = bytes "OK" ∧ respTag r = s.closeTag) ∨
      (respCode r ≠ bytes "OK" ∧ respTag r = s.selectTag) →
      (responseReceived r s).st.state = SessState.Authenticated ∧
      selectedMailBox (responseReceived r s).st = []) ∧
    (respCode r = bytes "OK" → respTag r = s.selectTag → respTag r ≠ s.closeTag →
      (responseReceived r s).st.state = SessState.Selected ∧
      selectedMailBox (responseReceived r s).st = s.upcomingMailBox) := by
  obtain ⟨st, aT, sT, cT, cM, uM, gr, tc, cj⟩ := s
  simp only at hst
  subst hst
  constructor
  · intro h
    simp only [responseReceived, if_neg hbye, if_pos h, selectedMailBox]
    cases cj <;> exact ⟨rfl, rfl⟩
  · intro h1 h2 h3
    simp only at h2 h3
    have hneg : ¬ ((respCode r = bytes "OK" ∧ respTag r = cT) ∨
        (respCode r ≠ bytes "OK" ∧ respTag r = sT)) := by
      rintro (⟨_, hc⟩ | ⟨hn, _⟩)
      · exact h3 hc
      · exact hn h1
    have hpos : respCode r = bytes "OK" ∧ respTag r = sT := ⟨h1, h2⟩
    simp only [responseReceived, if_neg hbye, if_neg hneg, if_pos hpos,
      selectedMailBox]
    cases cj <;> exact ⟨rfl, rfl⟩

/-- Witness for C4 (amended): the `OK` completion of the tracked CLOSE
moves `closeSession` back to `Authenticated` and clears the mailbox. -/
theorem C4_amended_witness :
    (responseReceived closeOkMsg closeSession).st.state =
      SessState.Authenticated ∧
    selectedMailBox (responseReceived closeOkMsg closeSession).st = [] := by
  exact (C4_amended closeSession closeOkMsg (by decide) (by decide)).1
    (Or.inl (by exact ⟨by decide, by decide⟩))

/-- `(l ++ [34]).takeWhile` up to the first quote byte recovers `l` when
`l` holds no quote byte. -/
theorem takeWhile_no_quote (l : List Nat) (h : 34 ∉ l) :
    (l ++ [34]).takeWhile (fun c => c ≠ 34) = l := by
  induction l with
  | nil => simp
  | cons x xs ih =>
    simp only [List.mem_cons, not_or] at h
    have hx : ¬ x = 34 := fun h' => h.1 h'.symm
    rw [List.cons_append, List.takeWhile_cons, ih h.2]
    simp [hx]

/-- `sendCommand` with a `SELECT` or `EXAMINE` command records the select
tag and the decoded upcoming mailbox, and leaves the protocol state
unchanged. -/
theorem sendCommand_selectExamine (command args : List Nat) (s : SessionSt)
    (hcmd : command = bytes "SELECT" ∨ command = bytes "EXAMINE") :
    (sendCommand command args s).st.upcomingMailBox =
      (args.drop 1).takeWhile (fun c => c ≠ 34) ∧
    (sendCommand command args s).st.selectTag =
      (sendCommand command args s).tag ∧
    (sendCommand command args s).st.state = s.state ∧
    (sendCommand command args s).st.currentJob = s.currentJob := by
  have hno : ¬ (command = bytes "LOGIN" ∨ command = bytes "AUTHENTICATE") := by
    rcases hcmd with h | h <;> subst h <;> decide
  simp only [sendCommand, decodeImapFolderName]
  rw [if_neg hno, if_pos hcmd]
  exact ⟨rfl, rfl, rfl, rfl⟩

/-- An `OK` completion carrying the tracked select tag moves an
authenticated session to `Selected` and installs the upcoming mailbox as
the current one (`session.cpp:277-281`). -/
theorem responseReceived_select_ok (s : SessionSt) (r : Message)
    (hst : s.state = SessState.Authenticated)
    (ht : respTag r = s.selectTag) (hc : respCode r = bytes "OK") :
    (responseReceived r s).st.state = SessState.Selected ∧
    selectedMailBox (responseReceived r s).st = s.upcomingMailBox := by
  obtain ⟨st, aT, sT, cT, cM, uM, gr, tc, cj⟩ := s
  simp only at hst ht
  subst hst
  have hb : respCode r ≠ bytes "BYE" := by rw [hc]; decide
  have hpos : respCode r = bytes "OK" ∧ respTag r = sT := ⟨hc, ht⟩
  simp only [responseReceived, if_neg hb, if_pos hpos, selectedMailBox]
  cases cj <;> exact ⟨rfl, rfl⟩

/-- C7: `sendCommand` with command `SELECT` or `EXAMINE` and a quoted
mailbox argument strips the surrounding quotes and mUTF-7-decodes the name
into `upcomingMailBox` (for names free of `&` escapes the decoding is the
identity), and once the matching `OK` completion is processed in state
`Authenticated`, `selectedMailBox()` equals the user-visible mailbox
name. -/
theorem C7_theorem (command name : List Nat) (s : SessionSt) (r : Message)
    (hcmd : command = bytes "SELECT" ∨ command = bytes "EXAMINE")
    (hq : 34 ∉ name) (_hamp : 38 ∉ name)
    (hst : s.state = SessState.Authenticated)
    (ht : respTag r = (sendCommand command (34 :: (name ++ [34])) s).tag)
    (hc : respCode r = bytes "OK") :
    (sendCommand command (34 :: (name ++ [34])) s).st.upcomingMailBox =
      name ∧
    (responseReceived r
      (sendCommand command (34 :: (name ++ [34])) s).st).st.state =
      SessState.Selected ∧
    selectedMailBox (responseReceived r
      (sendCommand command (34 :: (name ++ [34])) s).st).st = name := by
  obtain ⟨hup, hsel, hstate, _⟩ :=
    sendCommand_selectExamine command (34 :: (name ++ [34])) s hcmd
  have hup2 : (sendCommand command (34 :: (name ++ [34])) s).st.upcomingMailBox
      = name := by
    rw [hup]
    simpa using takeWhile_no_quote name hq
  have h := responseReceived_select_ok
    (sendCommand command (34 :: (name ++ [34])) s).st r
    (by rw [hstate, hst]) (by rw [ht, hsel]) hc
  exact ⟨hup2, h.1, by rw [h.2, hup2]⟩

/-- Witness for C7: selecting `INBOX` yields `selectedMailBox() == "INBOX"`
and examining `Archive` yields `selectedMailBox() == "Archive"`, both from
an authenticated session. -/
theorem C7_witness :
    selectedMailBox (responseReceived
      ⟨[Part.string (bytes "A000001"), Part.string (bytes "OK")], []⟩
      (sendCommand (bytes "SELECT") (34 :: (bytes "INBOX" ++ [34]))
        { initialSession with state := SessState.Authenticated }).st).st =
      bytes "INBOX" ∧
    selectedMailBox (responseReceived
      ⟨[Part.string (bytes "A000001"), Part.string (bytes "OK")], []⟩
      (sendCommand (bytes "EXAMINE") (34 :: (bytes "Archive" ++ [34]))
        { initialSession with state := SessState.Authenticated }).st).st =
      bytes "Archive" := by
  refine ⟨?_, ?_⟩
  · exact (C7_theorem (bytes "SELECT") (bytes "INBOX")
      { initialSession with state := SessState.Authenticated }
      ⟨[Part.string (bytes "A000001"), Part.string (bytes "OK")], []⟩
      (Or.inl rfl) (by decide) (by decide) (by decide) (by decide)
      (by decide)).2.2
  · exact (C7_theorem (bytes "EXAMINE") (bytes "Archive")
      { initialSession with state := SessState.Authenticated }
      ⟨[Part.string (bytes "A000001"), Part.string (bytes "OK")], []⟩
      (Or.inr rfl) (by decide) (by decide) (by decide) (by decide)
      (by decide)).2.2

/-- With enough fuel, `natDigitsAux` produces the base-10 digits of `n`:
their value is `n`. -/
theorem decValue_natDigitsAux (fuel : Nat) :
    ∀ n : Nat, n ≤ fuel → decValue (natDigitsAux fuel n) = n := by
  induction fuel with
  | zero =>
    intro n hn
    have : n = 0 := Nat.le_zero.mp hn
    subst this
    rfl
  | succ f ih =>
    intro n hn
    cases n with
    | zero => rfl
    | succ m =>
      have hdiv : (m + 1) / 10 ≤ f := by
        have := Nat.div_lt_self (Nat.succ_pos m) (by omega : 1 < 10)
        omega
      show decValue ((m + 1) % 10 :: natDigitsAux f ((m + 1) / 10)) = m + 1
      rw [decValue, ih _ hdiv]
      omega

/-- The digit list of `natDigits` evaluates back to its argument. -/
theorem decValue_natDigits (n : Nat) : decValue (natDigits n) = n :=
  decValue_natDigitsAux n n le_rfl

/-- Appending digits multiplies their weight by `10 ^ length`. -/
theorem decValue_append (l1 l2 : List Nat) :
    decValue (l1 ++ l2) = decValue l1 + 10 ^ l1.length * decValue l2 := by
  induction l1 with
  | nil => simp [decValue]
  | cons d ds ih =>
    show d + 10 * decValue (ds ++ l2) =
      (d + 10 * decValue ds) + 10 ^ (ds.length + 1) * decValue l2
    rw [ih, pow_succ]
    ring

/-- Zero digits contribute no value. -/
theorem decValue_replicate_zero (k : Nat) :
    decValue (List.replicate k 0) = 0 := by
  induction k with
  | zero => rfl
  | succ m ih => simp [List.replicate_succ, decValue, ih]

/-- `tagValue` recovers the counter from a formatted tag: zero-padding on
the left adds zero digits of highest weight and the `'A'` byte is
dropped. -/
theorem tagValue_formatTag (n : Nat) : tagValue (formatTag n) = n := by
  show decValue (((padLeft6 (digitsMSB n)).map (fun c => c - 48)).reverse) = n
  unfold padLeft6 digitsMSB
  rw [List.map_append, List.map_replicate, List.map_map]
  have hid : ((fun c => c - 48) ∘ fun d => 48 + d) = id := by
    funext d
    simp
  rw [hid, List.map_id]
  simp only [Nat.sub_self]
  rw [List.reverse_append, List.reverse_replicate, List.reverse_reverse,
    decValue_append, decValue_natDigits, decValue_replicate_zero,
    Nat.mul_zero, Nat.add_zero]

/-- Two distinct counters format to distinct tags. -/
theorem formatTag_injective {a b : Nat} (h : formatTag a = formatTag b) :
    a = b := by
  have h2 := congrArg tagValue h
  rwa [tagValue_formatTag, tagValue_formatTag] at h2

/-- `sendCommand` allocates the tag of the incremented counter. -/
theorem sendCommand_tag (c a : List Nat) (s : SessionSt) :
    (sendCommand c a s).tag = formatTag (s.tagCount + 1) := rfl

/-- Every `sendCommand` call increments the tag counter by exactly one. -/
theorem sendCommand_tagCount (c a : List Nat) (s : SessionSt) :
    (sendCommand c a s).st.tagCount = s.tagCount + 1 := by
  simp only [sendCommand]
  split_ifs <;> rfl

/-- The `k`-th tag allocated by a run of `sendCommand` calls is the format
of the starting counter plus `k + 1`. -/
theorem runCommands_get (cmds : List (List Nat × List Nat)) (s0 : SessionSt)
    (k : Nat) (hk : k < (runCommands cmds s0).2.length) :
    (runCommands cmds s0).2.get ⟨k, hk⟩ = formatTag (s0.tagCount + k + 1) := by
  induction cmds generalizing s0 k with
  | nil => simp [runCommands] at hk
  | cons ca rest ih =>
    cases k with
    | zero =>
      show (sendCommand ca.1 ca.2 s0).tag = formatTag (s0.tagCount + 0 + 1)
      rw [sendCommand_tag]
    | succ m =>
      have hm : m < (runCommands rest (sendCommand ca.1 ca.2 s0).st).2.length := by
        have h2 := hk
        simp only [runCommands, List.length_cons] at h2
        omega
      have h3 := ih (sendCommand ca.1 ca.2 s0).st m hm
      rw [sendCommand_tagCount] at h3
      show (runCommands rest (sendCommand ca.1 ca.2 s0).st).2.get ⟨m, hm⟩ =
        formatTag (s0.tagCount + (m + 1) + 1)
      rw [h3]
      congr 1
      omega

/-- C6: every `sendCommand` call allocates the tag `'A'` followed by the
zero-padded 6-digit decimal of the incremented counter, and across any
sequence of `sendCommand` calls the allocated tags carry strictly
increasing counter values and are pairwise distinct — no tag is ever
reused. -/
theorem C6_theorem (cmds : List (List Nat × List Nat)) (s0 : SessionSt)
    (i j : Nat) (hij : i < j)
    (hi : i < (runCommands cmds s0).2.length)
    (hj : j < (runCommands cmds s0).2.length) :
    (runCommands cmds s0).2.get ⟨i, hi⟩ = formatTag (s0.tagCount + i + 1) ∧
    tagValue ((runCommands cmds s0).2.get ⟨i, hi⟩) <
      tagValue ((runCommands cmds s0).2.get ⟨j, hj⟩) ∧
    (runCommands cmds s0).2.get ⟨i, hi⟩ ≠
      (runCommands cmds s0).2.get ⟨j, hj⟩ := by
  rw [runCommands_get cmds s0 i hi, runCommands_get cmds s0 j hj]
  refine ⟨rfl, ?_, ?_⟩
  · rw [tagValue_formatTag, tagValue_formatTag]
    omega
  · intro h
    have h2 := formatTag_injective h
    omega

/-- Witness for C6: a LOGIN followed by a SELECT from a fresh session
allocates `A000001` then `A000002`: distinct tags with increasing
values. -/
theorem C6_witness :
    (runCommands demoCmds initialSession).2.get ⟨0, by decide⟩ =
      bytes "A000001" ∧
    tagValue ((runCommands demoCmds initialSession).2.get ⟨0, by decide⟩) <
      tagValue ((runCommands demoCmds initialSession).2.get ⟨1, by decide⟩) ∧
    (runCommands demoCmds initialSession).2.get ⟨0, by decide⟩ ≠
      (runCommands demoCmds initialSession).2.get ⟨1, by decide⟩ := by
  have h := C6_theorem demoCmds initialSession 0 1 (by decide) (by decide)
    (by decide)
  exact ⟨by rw [h.1]; decide, h.2.1, h.2.2⟩

/-- The part built by the reader's string branch is never a string part
holding `"NIL"`: a `"NIL"` token is converted to an empty list part. -/
theorem nil_guard_part (s : List Nat) :
    (if s = bytes "NIL" then Part.list [] else Part.string s) ≠
      Part.string (bytes "NIL") := by
  split_ifs with h
  · intro hc
    simp at hc
  · intro hc
    injection hc with h2
    exact h h2

/-- `addPart` preserves freedom from `"NIL"` string parts when the added
part is not one. -/
theorem addPart_noNil {d : DecodeSt} {p : Part}
    (h1 : noNilPart d.content) (h2 : noNilPart d.responseCode)
    (hp : p ≠ Part.string (bytes "NIL")) :
    noNilPart (addPart d p).content ∧ noNilPart (addPart d p).responseCode := by
  unfold addPart
  split_ifs
  · refine ⟨h1, ?_⟩
    simp only [noNilPart, List.mem_append, List.mem_singleton] at h2 ⊢
    rintro (h | h)
    · exact h2 h
    · exact hp h.symm
  · refine ⟨?_, h2⟩
    simp only [noNilPart, List.mem_append, List.mem_singleton] at h1 ⊢
    rintro (h | h)
    · exact h1 h
    · exact hp h.symm

/-- The decode loop of `SessionPrivate::readMessage` never accumulates a
string part holding `"NIL"`. -/
theorem decodeLoop_noNil (fuel : Nat) (buffer : List Nat) (d : DecodeSt)
    (h1 : noNilPart d.content) (h2 : noNilPart d.responseCode) :
    noNilPart (decodeLoop fuel buffer d).1.content ∧
    noNilPart (decodeLoop fuel buffer d).1.responseCode := by
  induction fuel generalizing d with
  | zero => exact ⟨h1, h2⟩
  | succ f ih =>
    simp only [decodeLoop]
    split_ifs <;>
      first
        | exact ⟨h1, h2⟩
        | exact ih _ h1 h2
        | (refine ih _ ((addPart_noNil ?_ ?_ ?_).1) ((addPart_noNil ?_ ?_ ?_).2) <;>
            first
              | exact h1
              | exact h2
              | simp_all)

/-- The decode loop of the earlier `SessionThread::readMessage` never
accumulates a string part holding `"NIL"`. -/
theorem decodeLoopOld_noNil (fuel : Nat) (buffer : List Nat) (d : DecodeSt)
    (h1 : noNilPart d.content) (h2 : noNilPart d.responseCode) :
    noNilPart (decodeLoopOld fuel buffer d).1.content ∧
    noNilPart (decodeLoopOld fuel buffer d).1.responseCode := by
  induction fuel generalizing d with
  | zero => exact ⟨h1, h2⟩
  | succ f ih =>
    simp only [decodeLoopOld]
    split_ifs <;>
      first
        | exact ⟨h1, h2⟩
        | exact ih _ h1 h2
        | (refine ih _ ((addPart_noNil ?_ ?_ ?_).1) ((addPart_noNil ?_ ?_ ?_).2) <;>
            first
              | exact h1
              | exact h2
              | simp_all)

/-- C10: whenever either reader decodes a string token equal to `"NIL"`
the emitted message holds an empty list part at that position rather than
a string part, and no emitted message — from either reader — ever contains
a string part holding the bytes `"NIL"`; the response line
`* X NIL Y\r\n` concretely yields an empty list part at the `NIL`
position. -/
theorem C10_theorem :
    (∀ (ps0 : ParserState) (m : Message),
      (readMessagePriv ps0).emitted = some m →
      noNilPart m.content ∧ noNilPart m.responseCode) ∧
    (∀ (ps0 : ParserState) (m : Message),
      (readMessageThread ps0).emitted = some m →
      noNilPart m.content ∧ noNilPart m.responseCode) ∧
    (readMessagePriv nilDemoParser).emitted = some nilDemoMessage := by
  refine ⟨?_, ?_, by decide⟩
  · intro ps0 m h
    simp only [readMessagePriv] at h
    split_ifs at h <;>
      first
        | (simp only [Option.some.injEq] at h
           subst h
           exact decodeLoop_noNil _ _ _ (by simp [noNilPart]) (by simp [noNilPart]))
        | simp at h
  · intro ps0 m h
    simp only [readMessageThread] at h
    split_ifs at h <;>
      first
        | (simp only [Option.some.injEq] at h
           subst h
           exact decodeLoopOld_noNil _ _ _ (by simp [noNilPart]) (by simp [noNilPart]))
        | simp at h

/-- Witness for C10: the message decoded from `* X NIL Y\r\n` holds no
string part `"NIL"`. -/
theorem C10_witness :
    noNilPart nilDemoMessage.content ∧ noNilPart nilDemoMessage.responseCode :=
  C10_theorem.1 nilDemoParser nilDemoMessage (by decide)

/-- C3: the claim requires both readers to reschedule a further drain for
every positive remaining byte count.  Refuted at a concrete input: after
the earlier `SessionThread::readMessage` consumes `* OK\r\n` from the
buffer `* OK\r\nX`, exactly one byte remains, yet no further drain is
scheduled — its guard is `availableDataSize() > 1`
(`sessionthread.cpp:126`), not `>= 1` as in `SessionPrivate::readMessage`
(`session.cpp:559`), which does reschedule on the same input. -/
theorem C3_counterexample :
    (readMessageThread oneByteLeftParser).emitted =
      some ⟨[Part.string (bytes "*"), Part.string (bytes "OK")], []⟩ ∧
    availableDataSize (readMessageThread oneByteLeftParser).ps = 1 ∧
    (readMessageThread oneByteLeftParser).rescheduled = false ∧
    (readMessagePriv oneByteLeftParser).rescheduled = true := by
  refine ⟨by decide, by decide, by decide, by decide⟩

/-- C3 (amended): on every read drain of `SessionPrivate::readMessage`, if
no message is emitted and the transport was not aborted the parser is left
at the pre-decode position (saved state restored, or nothing consumed);
when a message is emitted the consumed prefix has been trimmed (the cursor
and checkpoint return to the start of the remaining buffer, a suffix of
the old one), exactly one message is emitted, and another drain is
scheduled cooperatively exactly when at least one byte — including a
single byte — remains.  The earlier `SessionThread::readMessage` takes no
checkpoint and schedules another drain only when more than one byte
remains. -/
theorem C3_amended :
    (∀ ps0 : ParserState,
      ((readMessagePriv ps0).emitted = none →
        (readMessagePriv ps0).aborted = false →
        (readMessagePriv ps0).ps.buffer = ps0.buffer ∧
        (readMessagePriv ps0).ps.cur.cursor = ps0.cur.cursor ∧
        (readMessagePriv ps0).rescheduled = false) ∧
      (∀ m : Message, (readMessagePriv ps0).emitted = some m →
        (readMessagePriv ps0).ps.cur.cursor = 0 ∧
        (readMessagePriv ps0).ps.saved = 0 ∧
        (readMessagePriv ps0).ps.buffer.IsSuffix ps0.buffer ∧
        ((readMessagePriv ps0).rescheduled = true ↔
          1 ≤ availableDataSize (readMessagePriv ps0).ps))) ∧
    (∀ (ps0 : ParserState) (m : Message),
      (readMessageThread ps0).emitted = some m →
      ((readMessageThread ps0).rescheduled = true ↔
        1 < availableDataSize (readMessageThread ps0).ps)) := by
  constructor
  · intro ps0
    simp only [readMessagePriv]
    split_ifs
    · exact ⟨fun _ _ => ⟨rfl, rfl, rfl⟩, fun m hm => by simp at hm⟩
    · exact ⟨fun _ _ => ⟨rfl, rfl, rfl⟩, fun m hm => by simp at hm⟩
    · exact ⟨fun _ h2 => by simp at h2, fun m hm => by simp at hm⟩
    · exact ⟨fun _ _ => ⟨rfl, rfl, rfl⟩, fun m hm => by simp at hm⟩
    · refine ⟨fun h1 _ => by simp at h1, fun m _ => ⟨rfl, rfl, ?_, by simp⟩⟩
      exact List.drop_suffix _ _
  · intro ps0 m
    simp only [readMessageThread]
    split_ifs
    · intro hm
      simp at hm
    · intro hm
      simp at hm
    · intro _
      simp
    · intro hm
      simp at hm

/-- Witness for C3 (amended): with two bytes left after a complete
response the private reader trims and reschedules; with one byte left the
threaded reader's reschedule guard is equivalent to `2 ≤ 1` and stays
off. -/
theorem C3_amended_witness :
    (readMessagePriv twoBytesLeftParser).ps.cur.cursor = 0 ∧
    ((readMessagePriv twoBytesLeftParser).rescheduled = true ↔
      1 ≤ availableDataSize (readMessagePriv twoBytesLeftParser).ps) ∧
    ((readMessageThread oneByteLeftParser).rescheduled = true ↔
      1 < availableDataSize (readMessageThread oneByteLeftParser).ps) := by
  have h1 := (C3_amended.1 twoBytesLeftParser).2
    ⟨[Part.string (bytes "*"), Part.string (bytes "A")], []⟩ (by decide)
  have h2 := C3_amended.2 oneByteLeftParser
    ⟨[Part.string (bytes "*"), Part.string (bytes "OK")], []⟩ (by decide)
  exact ⟨h1.1, h1.2.2.2, h2⟩

end KIMAP2
